import Mathlib

/-!
Shallow embedding of the media-download chat bot (`src/bot.py`) and proofs
about its conversational state machine, persistent store, download logic,
subscription gate and broadcast loop.

Conventions of the embedding:
* Python strings are Lean `String`s; `str.strip()` / `str.lower()` / slicing
  are modelled character-wise (`pyStrip`, `pyLower`, `pyTake`) over the
  character classes that actually occur in this program (ASCII plus the
  Cyrillic alphabet used by the "ru" texts).
* The SQLite tables of `Storage` are modelled as association lists kept in
  insertion order (matching `SELECT` without `ORDER BY` on rowid tables);
  every `Storage` method returns the updated store explicitly, so a read
  that performs no write returns the store unchanged.
* The transport (python-telegram-bot) is a boundary: outbound calls are
  recorded as `Action`s, inbound data (message text, chat type, membership
  status, per-recipient send success) are parameters.
-/

set_option autoImplicit false

namespace Bot

/-- Whitespace as matched by Python `str.strip()` / `\s` on the ASCII range
(space, tab, newline, carriage return, vertical tab, form feed). -/
def pyIsSpace (c : Char) : Bool :=
  c = ' ' || c = '\t' || c = '\n' || c = '\r' || c.toNat = 11 || c.toNat = 12

/-- `str.strip()` on a character list: drop whitespace from both ends. -/
def pyStripL (l : List Char) : List Char :=
  ((l.dropWhile pyIsSpace).reverse.dropWhile pyIsSpace).reverse

/-- Python `text.strip()`. -/
def pyStrip (s : String) : String :=
  (pyStripL s.toList).asString

/-- Python `str.lower()` restricted to the alphabets this program uses:
ASCII `A`-`Z` and Cyrillic `А`-`Я`/`Ё`. Other characters are unchanged. -/
def pyLowerChar (c : Char) : Char :=
  if 65 ≤ c.toNat ∧ c.toNat ≤ 90 then Char.ofNat (c.toNat + 32)
  else if 0x410 ≤ c.toNat ∧ c.toNat ≤ 0x42F then Char.ofNat (c.toNat + 32)
  else if c.toNat = 0x401 then Char.ofNat 0x451
  else c

/-- Python `text.lower()`. -/
def pyLower (s : String) : String :=
  (s.toList.map pyLowerChar).asString

/-- Python slicing `s[:n]` on a `str` (counts code points). -/
def pyTake (n : Nat) (s : String) : String :=
  (s.toList.take n).asString

/-- `leadsWith p l` is true when `p` is an initial segment of `l`. -/
def leadsWith : List Char → List Char → Bool
  | [], _ => true
  | _ :: _, [] => false
  | p :: ps, c :: cs => p == c && leadsWith ps cs

/-- Python `needle in haystack` for strings, as lists of characters. -/
def containsSub : List Char → List Char → Bool
  | [], needle => needle.isEmpty
  | c :: rest, needle => leadsWith needle (c :: rest) || containsSub rest needle

/-- Case-insensitive comparison used by the `re.IGNORECASE` URL pattern:
lowercase `a` and compare with the (lowercase) literal `b`. -/
def lowEq (a b : List Char) : Bool :=
  a.map pyLowerChar == b

/-- Whether the regex `https?://\S+` (bot.py line 32, `re.IGNORECASE`)
matches at the start of the suffix `l`: a case-insensitive `http://` or
`https://` scheme followed by at least one non-whitespace character. -/
def urlAt (l : List Char) : Bool :=
  (lowEq (l.take 7) "http://".toList &&
    (match l.drop 7 with
     | [] => false
     | c :: _ => !(pyIsSpace c))) ||
  (lowEq (l.take 8) "https://".toList &&
    (match l.drop 8 with
     | [] => false
     | c :: _ => !(pyIsSpace c)))

/-- `re.search` for `https?://\S+`: scan left to right for the first
position where the pattern matches and return the maximal run of
non-whitespace characters from there (the greedy `\S+` together with the
scheme, i.e. `match.group(0)`). -/
def findUrl : List Char → Option (List Char)
  | [] => Option.none
  | c :: rest =>
    if urlAt (c :: rest) then some ((c :: rest).takeWhile (fun ch => !(pyIsSpace ch)))
    else findUrl rest

/-- `extract_url` (bot.py lines 296-298): first regex match in the text,
or `none` when the text contains no `http(s)://` URL. -/
def extract_url (s : String) : Option String :=
  (findUrl s.toList).map List.asString

/-- One row of the `users` table (bot.py lines 125-131); `created_at` is
not read anywhere and is omitted. Column defaults:
`language 'ru'`, `language_selected 0`, `preferred_format 'auto'`. -/
structure Profile where
  language : String
  language_selected : Bool
  preferred_format : String
deriving DecidableEq

/-- The column defaults applied by `INSERT OR IGNORE INTO users (user_id)`. -/
def defaultProfile : Profile :=
  { language := "ru", language_selected := false, preferred_format := "auto" }

/-- The three durable tables of `Storage` (bot.py lines 120-211):
`users`, `user_states`, and the single `media_caption` row of
`bot_settings` (initialised to `''` by the constructor, line 150-152). -/
structure Storage where
  users : List (Int × Profile)
  states : List (Int × String)
  media_caption : String
deriving DecidableEq

/-- A freshly constructed `Storage` over an empty database. -/
def Storage.empty : Storage :=
  { users := [], states := [], media_caption := "" }

/-- First-match association-list lookup (the `PRIMARY KEY` makes keys
unique, so first match is the row). -/
def alookup {α : Type} : List (Int × α) → Int → Option α
  | [], _ => Option.none
  | (k, v) :: rest, key => if k = key then some v else alookup rest key

/-- `upsert_user` (lines 155-157): `INSERT OR IGNORE` — create the default
row only when the identity has no row yet. -/
def Storage.upsert_user (st : Storage) (uid : Int) : Storage :=
  match alookup st.users uid with
  | some _ => st
  | Option.none => { st with users := st.users ++ [(uid, defaultProfile)] }

/-- `has_language` (lines 159-161): plain `SELECT language_selected`;
`bool(row and row[0] == 1)`. Performs no write, so the store is returned
unchanged. -/
def Storage.has_language (st : Storage) (uid : Int) : Bool × Storage :=
  (match alookup st.users uid with
   | some p => p.language_selected
   | Option.none => false,
   st)

/-- `get_language` (lines 163-166): upsert, then
`row[0] if row and row[0] in {"ru","en"} else "ru"`. -/
def Storage.get_language (st : Storage) (uid : Int) : String × Storage :=
  let st1 := st.upsert_user uid
  (match alookup st1.users uid with
   | some p => if p.language = "ru" ∨ p.language = "en" then p.language else "ru"
   | Option.none => "ru",
   st1)

/-- Update the profile of `uid` in place (SQL `UPDATE ... WHERE user_id`). -/
def updUser (users : List (Int × Profile)) (uid : Int) (f : Profile → Profile) :
    List (Int × Profile) :=
  users.map (fun p => if p.1 = uid then (p.1, f p.2) else p)

/-- `set_language` (lines 168-171). -/
def Storage.set_language (st : Storage) (uid : Int) (lang : String) : Storage :=
  let st1 := st.upsert_user uid
  let f : Profile → Profile := fun p => { p with language := lang, language_selected := true }
  { st1 with users := updUser st1.users uid f }

/-- `set_format` (lines 173-176). -/
def Storage.set_format (st : Storage) (uid : Int) (fmt : String) : Storage :=
  let st1 := st.upsert_user uid
  let f : Profile → Profile := fun p => { p with preferred_format := fmt }
  { st1 with users := updUser st1.users uid f }

/-- `get_format` (lines 178-181): upsert, then `row[0] if row else "auto"`. -/
def Storage.get_format (st : Storage) (uid : Int) : String × Storage :=
  let st1 := st.upsert_user uid
  (match alookup st1.users uid with
   | some p => p.preferred_format
   | Option.none => "auto",
   st1)

/-- `all_users` (lines 183-185): the `user_id` column in row order. -/
def Storage.all_users (st : Storage) : List Int :=
  st.users.map Prod.fst

/-- `INSERT ... ON CONFLICT(user_id) DO UPDATE` on `user_states`:
replace the row in place, or append a new row at the end. -/
def updState : List (Int × String) → Int → String → List (Int × String)
  | [], uid, s => [(uid, s)]
  | (k, v) :: rest, uid, s =>
    if k = uid then (k, s) :: rest else (k, v) :: updState rest uid s

/-- `set_state` (lines 187-192). -/
def Storage.set_state (st : Storage) (uid : Int) (s : String) : Storage :=
  { st with states := updState st.states uid s }

/-- `get_state` (lines 194-196): plain `SELECT`; no write. -/
def Storage.get_state (st : Storage) (uid : Int) : Option String × Storage :=
  (alookup st.states uid, st)

/-- `clear_state` (lines 198-200): `DELETE FROM user_states WHERE user_id`. -/
def Storage.clear_state (st : Storage) (uid : Int) : Storage :=
  { st with states := st.states.filter (fun p => !(p.1 == uid)) }

/-- `get_media_caption` (lines 202-204). The constructor guarantees the
`media_caption` row exists, so the `row[0] if row else ""` fallback is the
stored value. -/
def Storage.get_media_caption (st : Storage) : String :=
  st.media_caption

/-- `set_media_caption` (lines 206-211): upsert of the single settings row. -/
def Storage.set_media_caption (st : Storage) (v : String) : Storage :=
  { st with media_caption := v }

/-- `Config` (bot.py lines 112-117). -/
structure Config where
  bot_token : String
  owner_id : Int
  required_channel : String
  max_file_size_mb : Int
deriving DecidableEq

/-- The membership statuses the transport can report for a chat member
(`telegram.constants.ChatMemberStatus`). -/
inductive MemberStatus
  | member
  | administrator
  | owner
  | restricted
  | left
  | banned
deriving DecidableEq

/-- `check_subscription` (bot.py lines 336-346). The transport call
`get_chat_member` either returns a status (`Except.ok`) or raises
(`Except.error`); the `except Exception: return False` arm maps every
raised error to `false`. -/
def check_subscription (resp : Except Unit MemberStatus) : Bool :=
  match resp with
  | Except.ok MemberStatus.member => true
  | Except.ok MemberStatus.administrator => true
  | Except.ok MemberStatus.owner => true
  | Except.ok MemberStatus.restricted => true
  | Except.ok _ => false
  | Except.error _ => false

/-- `find_latest_file` (bot.py lines 257-262) over a directory listing of
(path, mtime) pairs (only files, as `p.is_file()` filters). The stable
descending sort by mtime followed by `files[0]` picks the first-listed
file among those with maximal mtime. -/
def find_latest_file : List (String × Nat) → Option (String × Nat)
  | [] => Option.none
  | f :: fs => some (fs.foldl (fun best p => if best.2 < p.2 then p else best) f)

/-- `download_media` (bot.py lines 265-293). The two external tool runs
are inputs: exit code and combined log of `yt-dlp` and of `gallery-dl`,
plus the scratch-directory listing as observed after each run (the
`gallery-dl` run sees whatever the first run left behind). Mirrors the
source exactly: a tool's result is used only when its exit code is 0 and
`find_latest_file` finds a file; otherwise the fallback is consulted with
the same check; if both fail, the error carries each log truncated to its
first 350 characters. -/
def download_media (ytCode : Int) (ytLog : String) (dirAfterYt : List (String × Nat))
    (gdCode : Int) (gdLog : String) (dirAfterGd : List (String × Nat)) :
    Except String (String × Nat) :=
  match (if ytCode = 0 then find_latest_file dirAfterYt else Option.none) with
  | some f => Except.ok f
  | Option.none =>
    match (if gdCode = 0 then find_latest_file dirAfterGd else Option.none) with
    | some f => Except.ok f
    | Option.none =>
      Except.error
        ("Download failed. yt-dlp: " ++ pyTake 350 ytLog ++ " | gallery-dl: " ++ pyTake 350 gdLog)

/-- Reply markups the bot attaches to outbound messages:
`ReplyKeyboardRemove`, `make_menu(lang, is_owner)` (bot.py lines 301-318),
the inline language and format keyboards, or no markup. -/
inductive Markup
  | none
  | remove
  | menu (lang : String) (is_owner : Bool)
  | langButtons
  | formatButtons
deriving DecidableEq

/-- Outbound message payloads: `t(lang, key)` template messages, and the
`broadcast_done` message carrying the tallies. -/
inductive Msg
  | text (lang key : String)
  | broadcastDone (lang : String) (sent failed : Nat)
deriving DecidableEq

/-- Observable transport effects of a handler, in order. -/
inductive Action
  | reply (m : Msg) (k : Markup)
  | download (url : String)
  | sendTo (user : Int) (ok : Bool)
deriving DecidableEq

/-- Telegram chat kinds distinguished by the handlers (`private` is a Lean
keyword, so the private kind is named `priv`). -/
inductive ChatType
  | priv
  | group
  | supergroup
  | channel
deriving DecidableEq

/-- `handle_download` (bot.py lines 349-382), collapsed to its interface:
the whole pipeline (subscription gate, status edits, download, transcode,
size check, document send) talks only to the transport and to external
tools, recorded here as one `Action.download url`; its only store accesses
are reads — `get_format(sender_id)` (whose lazy upsert is made explicit
here) and `get_media_caption()` — and in particular it never sends a menu
keyboard, never writes the caption and never touches `user_states`. -/
def handle_download (st : Storage) (uid : Int) (url : String) : Storage × List Action :=
  ((st.get_format uid).2, [Action.download url])

/-- The cancel-keyword test `text.lower() in {"cancel", "отмена"}`
(bot.py line 461); `text` is already stripped at this point. -/
def isCancel (text : String) : Bool :=
  pyLower text == "cancel" || pyLower text == "отмена"

/-- The menu-button dispatch at the end of the private branch of
`message_handler` (bot.py lines 497-519), reached when no awaiting-state
branch fired: exact button-label matches, with the owner-only guard on the
caption and broadcast buttons, and the fallback that redisplays the menu
for unrecognized text. -/
def menu_dispatch (st : Storage) (uid : Int) (lang : String) (is_owner : Bool)
    (text : String) : Storage × List Action :=
  if text = "📥 Скачать видео/медиа" ∨ text = "📥 Download video/media" then
    (st.set_state uid "awaiting_url", [Action.reply (Msg.text lang "send_link") Markup.remove])
  else if text = "🎬 Формат" ∨ text = "🎬 Format" then
    ((st.get_format uid).2, [Action.reply (Msg.text lang "format_now") Markup.formatButtons])
  else if text = "🌐 Язык" ∨ text = "🌐 Language" then
    (st, [Action.reply (Msg.text lang "choose_lang") Markup.langButtons])
  else if text = "ℹ️ Помощь" ∨ text = "ℹ️ Help" then
    (st, [Action.reply (Msg.text lang "help") (Markup.menu lang is_owner)])
  else if text = "📝 Текст под видео" ∨ text = "📝 Media caption" then
    if is_owner then
      (st.set_state uid "awaiting_caption", [Action.reply (Msg.text lang "ask_caption") Markup.remove])
    else
      (st, [Action.reply (Msg.text lang "owner_only") (Markup.menu lang is_owner)])
  else if text = "📣 Рассылка" ∨ text = "📣 Broadcast" then
    if is_owner then
      (st.set_state uid "awaiting_broadcast", [Action.reply (Msg.text lang "ask_broadcast") Markup.remove])
    else
      (st, [Action.reply (Msg.text lang "owner_only") (Markup.menu lang is_owner)])
  else
    (st, [Action.reply (Msg.text lang "menu") (Markup.menu lang is_owner)])

/-- The broadcast loop tally (bot.py lines 485-491): fold over the users,
incrementing `sent` when the send succeeds and `failed` when it raises. -/
def broadcast_tally (sendOk : Int → Bool) (users : List Int) : Nat × Nat :=
  users.foldl (fun acc u => if sendOk u then (acc.1 + 1, acc.2) else (acc.1, acc.2 + 1)) (0, 0)

/-- `message_handler` (bot.py lines 440-531). Inputs beyond the store:
the chat kind, the sender identity, the raw message text
(`update.message.text`, `Option.none` for a non-text payload), the bot's
username (group mention check), and `sendOk`, the transport's per-recipient
outcome for broadcast sends. The guard
`if not update.effective_chat ...: return` (line 444) is the case where the
handler is never materially entered and is outside this model. On the group
path, `mention = f"@{...}"` is never falsy (line 526), so only the
containment test remains. -/
def message_handler (cfg : Config) (sendOk : Int → Bool) (st : Storage) (chat : ChatType)
    (uid : Int) (rawText : Option String) (botUsername : String) : Storage × List Action :=
  let text := pyStrip (rawText.getD "")
  if text = "" then (st, [])
  else
    let st1 := st.upsert_user uid
    let lang := (st1.get_language uid).1
    let st2 := (st1.get_language uid).2
    let is_owner : Bool := uid == cfg.owner_id
    if chat = ChatType.priv then
      if text = "/start" then (st2, [])
      else
        let state := (st2.get_state uid).1
        if isCancel text then
          (st2.clear_state uid, [Action.reply (Msg.text lang "cancelled") (Markup.menu lang is_owner)])
        else if state = some "awaiting_url" then
          match extract_url text with
          | Option.none => (st2, [Action.reply (Msg.text lang "bad_link") Markup.none])
          | some url =>
            let st3 := st2.clear_state uid
            let dl := handle_download st3 uid url
            (dl.1, dl.2 ++ [Action.reply (Msg.text lang "menu") (Markup.menu lang is_owner)])
        else if state = some "awaiting_caption" ∧ is_owner = true then
          let st3 := (st2.set_media_caption text).clear_state uid
          (st3, [Action.reply (Msg.text lang "caption_saved") (Markup.menu lang true)])
        else if state = some "awaiting_broadcast" ∧ is_owner = true then
          let st3 := st2.clear_state uid
          let users := st3.all_users
          let tally := broadcast_tally sendOk users
          (st3, users.map (fun u => Action.sendTo u (sendOk u)) ++
            [Action.reply (Msg.broadcastDone lang tally.1 tally.2) (Markup.menu lang true)])
        else
          menu_dispatch st2 uid lang is_owner text
    else if chat = ChatType.group ∨ chat = ChatType.supergroup then
      let mention := "@" ++ pyLower botUsername
      if containsSub (pyLower text).toList mention.toList then
        match extract_url text with
        | Option.none => (st2, [])
        | some url => handle_download st2 uid url
      else (st2, [])
    else (st2, [])

/-- `start_handler` (bot.py lines 385-404): non-private chats get the
(always Russian) group hint; otherwise upsert the user and either prompt
for a language (when `language_selected` is not set) or send the welcome
message with the menu. -/
def start_handler (cfg : Config) (st : Storage) (chat : ChatType) (uid : Int) :
    Storage × List Action :=
  if chat ≠ ChatType.priv then
    (st, [Action.reply (Msg.text "ru" "group_hint") Markup.none])
  else
    let st1 := st.upsert_user uid
    if (st1.has_language uid).1 = false then
      (st1, [Action.reply (Msg.text "ru" "choose_lang") Markup.langButtons])
    else
      let lang := (st1.get_language uid).1
      ((st1.get_language uid).2,
        [Action.reply (Msg.text lang "welcome") (Markup.menu lang (uid == cfg.owner_id))])

theorem alookup_append_none {α : Type} {l : List (Int × α)} {k : Int} (v : α)
    (h : alookup l k = Option.none) :
    alookup (l ++ [(k, v)]) k = some v := by
  induction l with
  | nil => simp [alookup]
  | cons p rest ih =>
    obtain ⟨k0, v0⟩ := p
    by_cases hk : k0 = k
    · simp [alookup, hk] at h
    · simp only [alookup, List.cons_append, if_neg hk] at h ⊢
      exact ih h

theorem alookup_filter_ne {α : Type} (l : List (Int × α)) (k : Int) :
    alookup (l.filter (fun p => !(p.1 == k))) k = Option.none := by
  induction l with
  | nil => simp [alookup]
  | cons p rest ih =>
    obtain ⟨k0, v0⟩ := p
    by_cases hk : k0 = k
    · simpa [List.filter, hk] using ih
    · have hb : (!k0 == k) = true := by simp [hk]
      simp [List.filter, hb, alookup, hk, ih]

theorem alookup_updState_self (l : List (Int × String)) (k : Int) (v : String) :
    alookup (updState l k v) k = some v := by
  induction l with
  | nil => simp [updState, alookup]
  | cons p rest ih =>
    obtain ⟨k0, v0⟩ := p
    by_cases hk : k0 = k
    · simp [updState, hk, alookup]
    · simp [updState, hk, alookup, ih]

@[simp] theorem upsert_user_states (st : Storage) (uid : Int) :
    (st.upsert_user uid).states = st.states := by
  unfold Storage.upsert_user
  cases alookup st.users uid <;> rfl

@[simp] theorem upsert_user_caption (st : Storage) (uid : Int) :
    (st.upsert_user uid).media_caption = st.media_caption := by
  unfold Storage.upsert_user
  cases alookup st.users uid <;> rfl

theorem upsert_user_lookup_none (st : Storage) (uid : Int)
    (h : alookup st.users uid = Option.none) :
    alookup (st.upsert_user uid).users uid = some defaultProfile := by
  unfold Storage.upsert_user
  rw [h]
  exact alookup_append_none defaultProfile h

theorem upsert_user_lookup_some (st : Storage) (uid : Int) (p : Profile)
    (h : alookup st.users uid = some p) :
    st.upsert_user uid = st := by
  unfold Storage.upsert_user
  rw [h]

@[simp] theorem get_language_snd_states (st : Storage) (uid : Int) :
    ((st.get_language uid).2).states = st.states := by
  unfold Storage.get_language
  simp

@[simp] theorem get_language_snd_caption (st : Storage) (uid : Int) :
    ((st.get_language uid).2).media_caption = st.media_caption := by
  unfold Storage.get_language
  simp

@[simp] theorem get_format_snd_states (st : Storage) (uid : Int) :
    ((st.get_format uid).2).states = st.states := by
  unfold Storage.get_format
  simp

@[simp] theorem get_format_snd_caption (st : Storage) (uid : Int) :
    ((st.get_format uid).2).media_caption = st.media_caption := by
  unfold Storage.get_format
  simp

@[simp] theorem set_state_caption (st : Storage) (uid : Int) (s : String) :
    (st.set_state uid s).media_caption = st.media_caption := rfl

@[simp] theorem clear_state_caption (st : Storage) (uid : Int) :
    (st.clear_state uid).media_caption = st.media_caption := rfl

@[simp] theorem clear_state_users (st : Storage) (uid : Int) :
    (st.clear_state uid).users = st.users := rfl

@[simp] theorem set_media_caption_states (st : Storage) (v : String) :
    (st.set_media_caption v).states = st.states := rfl

theorem has_language_upsert (st : Storage) (uid : Int) :
    ((st.upsert_user uid).has_language uid).1 = (st.has_language uid).1 := by
  cases h : alookup st.users uid with
  | some p => rw [upsert_user_lookup_some st uid p h]
  | none =>
    have hu : (st.upsert_user uid).users = st.users ++ [(uid, defaultProfile)] := by
      unfold Storage.upsert_user
      rw [h]
    unfold Storage.has_language
    rw [hu, alookup_append_none defaultProfile h, h]
    rfl

@[simp] theorem clear_state_lookup (st : Storage) (uid : Int) :
    alookup (st.clear_state uid).states uid = Option.none :=
  alookup_filter_ne st.states uid

@[simp] theorem clear_state_all_users (st : Storage) (uid : Int) :
    (st.clear_state uid).all_users = st.all_users := rfl

@[simp] theorem get_language_snd (st : Storage) (uid : Int) :
    (st.get_language uid).2 = st.upsert_user uid := rfl

@[simp] theorem upsert_user_idem (st : Storage) (uid : Int) :
    (st.upsert_user uid).upsert_user uid = st.upsert_user uid := by
  cases h : alookup st.users uid with
  | some p =>
    rw [upsert_user_lookup_some st uid p h, upsert_user_lookup_some st uid p h]
  | none =>
    exact upsert_user_lookup_some _ uid defaultProfile (upsert_user_lookup_none st uid h)

theorem broadcast_tally_go (sendOk : Int → Bool) (users : List Int) (a b : Nat) :
    (users.foldl (fun acc u => if sendOk u then (acc.1 + 1, acc.2) else (acc.1, acc.2 + 1)) (a, b)).1 +
      (users.foldl (fun acc u => if sendOk u then (acc.1 + 1, acc.2) else (acc.1, acc.2 + 1)) (a, b)).2 =
      a + b + users.length := by
  induction users generalizing a b with
  | nil => simp
  | cons u rest ih =>
    simp only [List.foldl_cons, List.length_cons]
    by_cases h : sendOk u = true
    · rw [if_pos h, ih (a + 1) b]
      omega
    · rw [if_neg h, ih a (b + 1)]
      omega

theorem broadcast_tally_total (sendOk : Int → Bool) (users : List Int) :
    (broadcast_tally sendOk users).1 + (broadcast_tally sendOk users).2 = users.length := by
  unfold broadcast_tally
  simpa using broadcast_tally_go sendOk users 0 0

/-- C6: for every (channel, user) membership query, `check_subscription`
returns `true` exactly when the transport reports status member,
administrator, owner, or restricted; every other status and every raised
transport error yields `false` — the gate fails closed, never open. -/
theorem C6_subscription_fails_closed (resp : Except Unit MemberStatus) :
    check_subscription resp = true ↔
      (resp = Except.ok MemberStatus.member ∨ resp = Except.ok MemberStatus.administrator ∨
       resp = Except.ok MemberStatus.owner ∨ resp = Except.ok MemberStatus.restricted) := by
  cases resp with
  | error e => simp [check_subscription]
  | ok s => cases s <;> simp [check_subscription]

/-- C8: a text message that is empty or whitespace-only after stripping
makes `message_handler` return before doing anything: the store is
returned untouched (no profile row created, no state read, changed or
cleared — the result does not depend on the store at all) and no transport
action is emitted, in any chat type and any conversation state. -/
theorem C8_blank_message_noop (cfg : Config) (sendOk : Int → Bool) (st : Storage)
    (chat : ChatType) (uid : Int) (rawText : Option String) (botUsername : String)
    (h : pyStrip (rawText.getD "") = "") :
    message_handler cfg sendOk st chat uid rawText botUsername = (st, []) := by
  simp [message_handler, h]

/-- Witness for C8: a message of three spaces in a private chat, over the
empty store, is a complete no-op. -/
theorem C8_blank_message_noop_witness :
    pyStrip ((some "   ").getD "") = "" ∧
    message_handler ⟨"t", 1, "c", 2048⟩ (fun _ => true) Storage.empty ChatType.priv 7
        (some "   ") "bot" = (Storage.empty, []) :=
  ⟨by decide, C8_blank_message_noop _ _ _ _ _ _ _ (by decide)⟩

/-- C10: `get_language` always returns a value in `{"ru", "en"}`; for an
absent profile row it returns `"ru"` (the lazily created default), and for
a stored language outside the set it returns `"ru"` instead of the stored
value. -/
theorem C10_get_language_range (st : Storage) (uid : Int) :
    ((st.get_language uid).1 = "ru" ∨ (st.get_language uid).1 = "en") ∧
    (alookup st.users uid = Option.none → (st.get_language uid).1 = "ru") ∧
    (∀ p, alookup st.users uid = some p → p.language ≠ "ru" → p.language ≠ "en" →
      (st.get_language uid).1 = "ru") := by
  cases h : alookup st.users uid with
  | none =>
    have hg : (st.get_language uid).1 = "ru" := by
      have h2 := upsert_user_lookup_none st uid h
      simp [Storage.get_language, h2, defaultProfile]
    rw [hg]
    exact ⟨Or.inl rfl, fun _ => rfl, fun p hp => by simp at hp⟩
  | some p =>
    have he : st.upsert_user uid = st := upsert_user_lookup_some st uid p h
    by_cases hv : p.language = "ru" ∨ p.language = "en"
    · have hg : (st.get_language uid).1 = p.language := by
        simp [Storage.get_language, he, h, hv]
      rw [hg]
      refine ⟨hv, fun hn => by simp at hn, fun q hq hq1 hq2 => ?_⟩
      rw [Option.some_inj] at hq
      subst hq
      exact absurd hv (by simp [hq1, hq2])
    · have hg : (st.get_language uid).1 = "ru" := by
        simp [Storage.get_language, he, h, hv]
      rw [hg]
      exact ⟨Or.inl rfl, fun _ => rfl, fun _ _ _ _ => rfl⟩

/-- The store used by the C10 witness: identity 3 has the invalid stored
language `"xx"`. -/
def c10store : Storage :=
  { users := [(3, { language := "xx", language_selected := true, preferred_format := "auto" })],
    states := [], media_caption := "" }

/-- Witness for C10: with `"xx"` stored, `get_language` returns `"ru"`. -/
theorem C10_get_language_range_witness :
    alookup c10store.users 3 =
      some { language := "xx", language_selected := true, preferred_format := "auto" } ∧
    (c10store.get_language 3).1 = "ru" :=
  ⟨by decide,
   (C10_get_language_range c10store 3).2.2
     { language := "xx", language_selected := true, preferred_format := "auto" }
     (by decide) (by decide) (by decide)⟩

/-- C4 (amended): among the Persistent Store's read operations, only
`get_language` and `get_format` lazily create the default profile row for
an unseen identity; `has_language` and `get_state` are pure reads that
perform no write (in particular `has_language` answers `false` for an
unseen identity without creating its row). -/
theorem C4_lazy_upsert_on_read (st : Storage) (uid : Int)
    (h : alookup st.users uid = Option.none) :
    alookup ((st.get_language uid).2).users uid = some defaultProfile ∧
    alookup ((st.get_format uid).2).users uid = some defaultProfile ∧
    (st.has_language uid).2 = st ∧
    (st.get_state uid).2 = st :=
  ⟨upsert_user_lookup_none st uid h, upsert_user_lookup_none st uid h, rfl, rfl⟩

/-- Witness for C4 (amended), at the unseen identity 8 over the empty
store. -/
theorem C4_lazy_upsert_on_read_witness :
    alookup Storage.empty.users 8 = Option.none ∧
    (alookup ((Storage.empty.get_language 8).2).users 8 = some defaultProfile ∧
     alookup ((Storage.empty.get_format 8).2).users 8 = some defaultProfile ∧
     (Storage.empty.has_language 8).2 = Storage.empty ∧
     (Storage.empty.get_state 8).2 = Storage.empty) :=
  ⟨by decide, C4_lazy_upsert_on_read Storage.empty 8 (by decide)⟩

/-- Counterexample to C4 as stated: `has_language` (bot.py lines 159-161)
is a plain `SELECT` with no `upsert_user` call, so reading identity 5 over
the empty store returns `false` and leaves the store without any profile
row for 5 — the claimed upsert-on-read does not happen for this read
operation (nor for `get_state`). -/
theorem C4_counterexample :
    alookup Storage.empty.users 5 = Option.none ∧
    (Storage.empty.has_language 5).1 = false ∧
    alookup ((Storage.empty.has_language 5).2).users 5 = Option.none ∧
    alookup ((Storage.empty.get_state 5).2).users 5 = Option.none := by
  decide

/-- C5 (amended): `download_media` returns a file only when one of the two
tool invocations exited with code 0 and the scratch directory was
non-empty after it (primary checked first, fallback with the same check);
when both checks fail it raises the download error carrying each tool's
diagnostic output truncated to its first 350 characters. The non-emptiness
check scans the whole scratch directory, however, so on the
fallback-success path the returned file can be one left behind by the
failed primary invocation (see the counterexample). -/
theorem C5_download_checks (ytCode : Int) (ytLog : String) (dAY : List (String × Nat))
    (gdCode : Int) (gdLog : String) (dAG : List (String × Nat)) (f : String × Nat) :
    (download_media ytCode ytLog dAY gdCode gdLog dAG = Except.ok f →
      (ytCode = 0 ∧ find_latest_file dAY = some f) ∨
      (gdCode = 0 ∧ find_latest_file dAG = some f)) ∧
    ((ytCode = 0 → find_latest_file dAY = Option.none) →
     (gdCode = 0 → find_latest_file dAG = Option.none) →
     download_media ytCode ytLog dAY gdCode gdLog dAG =
       Except.error
         ("Download failed. yt-dlp: " ++ pyTake 350 ytLog ++ " | gallery-dl: " ++ pyTake 350 gdLog)) := by
  unfold download_media
  by_cases hy : ytCode = 0
  · rw [if_pos hy]
    cases hfy : find_latest_file dAY with
    | some g =>
      refine ⟨fun hok => ?_, fun hb _ => ?_⟩
      · simp only [Except.ok.injEq] at hok
        exact Or.inl ⟨hy, by rw [hok]⟩
      · exact absurd (hb hy) (by simp)
    | none =>
      by_cases hg : gdCode = 0
      · rw [if_pos hg]
        cases hfg : find_latest_file dAG with
        | some g =>
          refine ⟨fun hok => ?_, fun _ hb => ?_⟩
          · simp only [Except.ok.injEq] at hok
            exact Or.inr ⟨hg, by rw [hok]⟩
          · exact absurd (hb hg) (by simp)
        | none => exact ⟨fun hok => by simp at hok, fun _ _ => rfl⟩
      · rw [if_neg hg]
        refine ⟨fun hok => by simp at hok, fun _ _ => rfl⟩
  · rw [if_neg hy]
    by_cases hg : gdCode = 0
    · rw [if_pos hg]
      cases hfg : find_latest_file dAG with
      | some g =>
        refine ⟨fun hok => ?_, fun _ hb => ?_⟩
        · simp only [Except.ok.injEq] at hok
          exact Or.inr ⟨hg, by rw [hok]⟩
        · exact absurd (hb hg) (by simp)
      | none => exact ⟨fun hok => by simp at hok, fun _ _ => rfl⟩
    · rw [if_neg hg]
      exact ⟨fun hok => by simp at hok, fun _ _ => rfl⟩

/-- Witness for C5 (amended): both tools fail over an empty scratch
directory, and the raised error carries both logs. -/
theorem C5_download_checks_witness :
    download_media 1 "ylog" [] 1 "glog" [] =
      Except.error ("Download failed. yt-dlp: " ++ pyTake 350 "ylog" ++ " | gallery-dl: " ++ pyTake 350 "glog") :=
  (C5_download_checks 1 "ylog" [] 1 "glog" [] ("x", 0)).2
    (fun h => absurd h (by decide)) (fun h => absurd h (by decide))

/-- Counterexample to C5 as stated ("a file produced by a failed tool
invocation is never returned"): `yt-dlp` exits 1 after writing
`partial.mp4`; `gallery-dl` exits 0 but writes nothing (the directory
listing is unchanged). The fallback check only asks that the directory be
non-empty, so `download_media` returns `partial.mp4` — a file produced by
the failed primary invocation. -/
theorem C5_counterexample :
    download_media 1 "boom" [("partial.mp4", 5)] 0 "" [("partial.mp4", 5)] =
      Except.ok ("partial.mp4", 5) := rfl

/-- C1: in a private chat, for an identity in state `awaiting_url` sending
a (non-blank, non-command — commands are filtered before this handler by
the `~filters.COMMAND` registration, bot.py line 544) text other than a
cancel keyword: if the text contains a well-formed `http(s)://` URL, the
state is cleared to idle, the download pipeline is triggered for the first
such URL (`extract_url` returns the leftmost match), and the menu is
redisplayed; if the text contains no URL, the state remains `awaiting_url`
and only the bad-link message is sent. -/
theorem C1_awaiting_url_transition (cfg : Config) (sendOk : Int → Bool) (st : Storage)
    (uid : Int) (rawText : Option String) (bu : String)
    (hne : pyStrip (rawText.getD "") ≠ "")
    (hns : pyStrip (rawText.getD "") ≠ "/start")
    (hnc : isCancel (pyStrip (rawText.getD "")) = false)
    (hstate : alookup st.states uid = some "awaiting_url") :
    (match extract_url (pyStrip (rawText.getD "")) with
     | some url =>
       ((message_handler cfg sendOk st ChatType.priv uid rawText bu).1.get_state uid).1 =
         Option.none ∧
       (message_handler cfg sendOk st ChatType.priv uid rawText bu).2 =
         [Action.download url,
          Action.reply (Msg.text ((st.upsert_user uid).get_language uid).1 "menu")
            (Markup.menu ((st.upsert_user uid).get_language uid).1 (uid == cfg.owner_id))]
     | Option.none =>
       ((message_handler cfg sendOk st ChatType.priv uid rawText bu).1.get_state uid).1 =
         some "awaiting_url" ∧
       (message_handler cfg sendOk st ChatType.priv uid rawText bu).2 =
         [Action.reply (Msg.text ((st.upsert_user uid).get_language uid).1 "bad_link")
            Markup.none]) := by
  have hmh : message_handler cfg sendOk st ChatType.priv uid rawText bu =
      (match extract_url (pyStrip (rawText.getD "")) with
       | Option.none => (((st.upsert_user uid).get_language uid).2,
           [Action.reply (Msg.text ((st.upsert_user uid).get_language uid).1 "bad_link")
              Markup.none])
       | some url =>
           (((((st.upsert_user uid).get_language uid).2.clear_state uid).get_format uid).2,
            [Action.download url,
             Action.reply (Msg.text ((st.upsert_user uid).get_language uid).1 "menu")
               (Markup.menu ((st.upsert_user uid).get_language uid).1 (uid == cfg.owner_id))])) := by
    simp only [message_handler, Storage.get_state, handle_download]
    rw [if_neg hne]
    simp only [if_true]
    rw [if_neg hns, if_neg (by rw [hnc]; exact Bool.false_ne_true)]
    simp only [get_language_snd_states, upsert_user_states]
    rw [if_pos hstate]
    cases extract_url (pyStrip (rawText.getD "")) <;> rfl
  rw [hmh]
  cases extract_url (pyStrip (rawText.getD "")) with
  | none =>
    refine ⟨?_, rfl⟩
    simp only [Storage.get_state, get_language_snd_states, upsert_user_states]
    exact hstate
  | some url =>
    refine ⟨?_, rfl⟩
    simp only [Storage.get_state, get_format_snd_states, clear_state_lookup]

/-- The store used by the C1 witness: identity 5 is in state
`awaiting_url`. -/
def c1store : Storage :=
  { users := [(5, defaultProfile)], states := [(5, "awaiting_url")], media_caption := "" }

/-- Witness for C1, at the spec's own example text: the extracted URL is
exactly `http://x.test/v/1`, the state is cleared, the download fires and
the menu is redisplayed. -/
theorem C1_awaiting_url_transition_witness :
    pyStrip ((some "check this out http://x.test/v/1 thanks").getD "") ≠ "" ∧
    extract_url "check this out http://x.test/v/1 thanks" = some "http://x.test/v/1" ∧
    alookup c1store.states 5 = some "awaiting_url" ∧
    (match extract_url (pyStrip ((some "check this out http://x.test/v/1 thanks").getD "")) with
     | some url =>
       ((message_handler ⟨"t", 1, "c", 2048⟩ (fun _ => true) c1store ChatType.priv 5
           (some "check this out http://x.test/v/1 thanks") "bot").1.get_state 5).1 =
         Option.none ∧
       (message_handler ⟨"t", 1, "c", 2048⟩ (fun _ => true) c1store ChatType.priv 5
           (some "check this out http://x.test/v/1 thanks") "bot").2 =
         [Action.download url,
          Action.reply (Msg.text ((c1store.upsert_user 5).get_language 5).1 "menu")
            (Markup.menu ((c1store.upsert_user 5).get_language 5).1 ((5 : Int) == (1 : Int)))]
     | Option.none =>
       ((message_handler ⟨"t", 1, "c", 2048⟩ (fun _ => true) c1store ChatType.priv 5
           (some "check this out http://x.test/v/1 thanks") "bot").1.get_state 5).1 =
         some "awaiting_url" ∧
       (message_handler ⟨"t", 1, "c", 2048⟩ (fun _ => true) c1store ChatType.priv 5
           (some "check this out http://x.test/v/1 thanks") "bot").2 =
         [Action.reply (Msg.text ((c1store.upsert_user 5).get_language 5).1 "bad_link")
            Markup.none]) :=
  ⟨by decide, by decide, by decide,
   C1_awaiting_url_transition ⟨"t", 1, "c", 2048⟩ (fun _ => true) c1store 5
     (some "check this out http://x.test/v/1 thanks") "bot"
     (by decide) (by decide) (by decide) (by decide)⟩

/-- C3 (amended): a text message from the owner in state
`awaiting_caption` (non-blank after stripping, not `"/start"`, and not a
cancel keyword — those paths return earlier) stores the
whitespace-stripped text as the global media caption (bot.py line 447
strips before any branch runs), clears the state to idle, and confirms
with the caption-saved message. -/
theorem C3_caption_stored (cfg : Config) (sendOk : Int → Bool) (st : Storage)
    (uid : Int) (rawText : Option String) (bu : String)
    (hne : pyStrip (rawText.getD "") ≠ "")
    (hns : pyStrip (rawText.getD "") ≠ "/start")
    (hnc : isCancel (pyStrip (rawText.getD "")) = false)
    (hstate : alookup st.states uid = some "awaiting_caption")
    (howner : uid = cfg.owner_id) :
    (message_handler cfg sendOk st ChatType.priv uid rawText bu).1.media_caption =
      pyStrip (rawText.getD "") ∧
    ((message_handler cfg sendOk st ChatType.priv uid rawText bu).1.get_state uid).1 =
      Option.none ∧
    (message_handler cfg sendOk st ChatType.priv uid rawText bu).2 =
      [Action.reply (Msg.text ((st.upsert_user uid).get_language uid).1 "caption_saved")
         (Markup.menu ((st.upsert_user uid).get_language uid).1 true)] := by
  have hmh : message_handler cfg sendOk st ChatType.priv uid rawText bu =
      (((((st.upsert_user uid).get_language uid).2.set_media_caption
           (pyStrip (rawText.getD ""))).clear_state uid),
       [Action.reply (Msg.text ((st.upsert_user uid).get_language uid).1 "caption_saved")
          (Markup.menu ((st.upsert_user uid).get_language uid).1 true)]) := by
    simp only [message_handler, Storage.get_state]
    rw [if_neg hne]
    simp only [if_true]
    rw [if_neg hns, if_neg (by rw [hnc]; exact Bool.false_ne_true)]
    simp only [get_language_snd_states, upsert_user_states]
    rw [if_neg (by rw [hstate]; simp), if_pos ⟨hstate, by simp [howner]⟩]
  rw [hmh]
  exact ⟨rfl, clear_state_lookup _ _, rfl⟩

/-- The store used by the C3 counterexample and witness: the owner
(identity 1) is in state `awaiting_caption`. -/
def c3store : Storage :=
  { users := [(1, defaultProfile)], states := [(1, "awaiting_caption")], media_caption := "" }

/-- Counterexample to C3 as stated: the owner sends the message `" hi "`
while in `awaiting_caption`; the stored caption is the stripped `"hi"`,
not the exact message text — `message_handler` strips the text (bot.py
line 447) before `set_media_caption` sees it on line 477. -/
theorem C3_counterexample :
    (message_handler ⟨"t", 1, "c", 2048⟩ (fun _ => true) c3store ChatType.priv 1
        (some " hi ") "bot").1.media_caption = "hi" ∧
    (" hi " : String) ≠ "hi" := by
  decide

/-- Witness for C3 (amended), at the owner message `" hi "`. -/
theorem C3_caption_stored_witness :
    alookup c3store.states 1 = some "awaiting_caption" ∧
    ((message_handler ⟨"t", 1, "c", 2048⟩ (fun _ => true) c3store ChatType.priv 1
        (some " hi ") "bot").1.media_caption = pyStrip ((some " hi ").getD "") ∧
     ((message_handler ⟨"t", 1, "c", 2048⟩ (fun _ => true) c3store ChatType.priv 1
        (some " hi ") "bot").1.get_state 1).1 = Option.none ∧
     (message_handler ⟨"t", 1, "c", 2048⟩ (fun _ => true) c3store ChatType.priv 1
        (some " hi ") "bot").2 =
       [Action.reply (Msg.text ((c3store.upsert_user 1).get_language 1).1 "caption_saved")
          (Markup.menu ((c3store.upsert_user 1).get_language 1).1 true)]) :=
  ⟨by decide,
   C3_caption_stored ⟨"t", 1, "c", 2048⟩ (fun _ => true) c3store 1 (some " hi ") "bot"
     (by decide) (by decide) (by decide) (by decide) rfl⟩

/-- C7: for the owner in state `awaiting_broadcast`, the broadcast attempts
every known user exactly once in list order (one `sendTo` per user, a
failure is tallied without aborting the rest), then reports the tallies,
and the tallies always satisfy `sent + failed = number of users`. -/
theorem C7_broadcast_tally (cfg : Config) (sendOk : Int → Bool) (st : Storage)
    (uid : Int) (rawText : Option String) (bu : String)
    (hne : pyStrip (rawText.getD "") ≠ "")
    (hns : pyStrip (rawText.getD "") ≠ "/start")
    (hnc : isCancel (pyStrip (rawText.getD "")) = false)
    (hstate : alookup st.states uid = some "awaiting_broadcast")
    (howner : uid = cfg.owner_id) :
    (message_handler cfg sendOk st ChatType.priv uid rawText bu).2 =
      ((st.upsert_user uid).all_users).map (fun u => Action.sendTo u (sendOk u)) ++
      [Action.reply
         (Msg.broadcastDone ((st.upsert_user uid).get_language uid).1
           (broadcast_tally sendOk ((st.upsert_user uid).all_users)).1
           (broadcast_tally sendOk ((st.upsert_user uid).all_users)).2)
         (Markup.menu ((st.upsert_user uid).get_language uid).1 true)] ∧
    (broadcast_tally sendOk ((st.upsert_user uid).all_users)).1 +
      (broadcast_tally sendOk ((st.upsert_user uid).all_users)).2 =
      ((st.upsert_user uid).all_users).length := by
  have hmh : message_handler cfg sendOk st ChatType.priv uid rawText bu =
      (((st.upsert_user uid).get_language uid).2.clear_state uid,
       ((((st.upsert_user uid).get_language uid).2.clear_state uid).all_users).map
          (fun u => Action.sendTo u (sendOk u)) ++
       [Action.reply
          (Msg.broadcastDone ((st.upsert_user uid).get_language uid).1
            (broadcast_tally sendOk
              ((((st.upsert_user uid).get_language uid).2.clear_state uid).all_users)).1
            (broadcast_tally sendOk
              ((((st.upsert_user uid).get_language uid).2.clear_state uid).all_users)).2)
          (Markup.menu ((st.upsert_user uid).get_language uid).1 true)]) := by
    simp only [message_handler, Storage.get_state]
    rw [if_neg hne]
    simp only [if_true]
    rw [if_neg hns, if_neg (by rw [hnc]; exact Bool.false_ne_true)]
    simp only [get_language_snd_states, upsert_user_states]
    rw [if_neg (by rw [hstate]; simp), if_neg (by rw [hstate]; simp),
      if_pos ⟨hstate, by simp [howner]⟩]
  constructor
  · rw [hmh]
    simp only [clear_state_all_users, get_language_snd, upsert_user_idem]
  · exact broadcast_tally_total sendOk ((st.upsert_user uid).all_users)

/-- The store used by the C7 witness: known users `[1, 2, 3]`, the owner
(identity 1) in state `awaiting_broadcast`. -/
def c7store : Storage :=
  { users := [(1, defaultProfile), (2, defaultProfile), (3, defaultProfile)],
    states := [(1, "awaiting_broadcast")], media_caption := "" }

/-- Witness for C7, at the spec's example: broadcasting over users
`[1, 2, 3]` where sending to identity 2 fails yields `sent = 2`,
`failed = 1`, and all three are attempted in order. -/
theorem C7_broadcast_tally_witness :
    alookup c7store.states 1 = some "awaiting_broadcast" ∧
    broadcast_tally (fun u => u != 2) ((c7store.upsert_user 1).all_users) = (2, 1) ∧
    ((message_handler ⟨"t", 1, "c", 2048⟩ (fun u => u != 2) c7store ChatType.priv 1
        (some "hello all") "bot").2 =
      ((c7store.upsert_user 1).all_users).map (fun u => Action.sendTo u (u != 2)) ++
      [Action.reply
         (Msg.broadcastDone ((c7store.upsert_user 1).get_language 1).1
           (broadcast_tally (fun u => u != 2) ((c7store.upsert_user 1).all_users)).1
           (broadcast_tally (fun u => u != 2) ((c7store.upsert_user 1).all_users)).2)
         (Markup.menu ((c7store.upsert_user 1).get_language 1).1 true)] ∧
     (broadcast_tally (fun u => u != 2) ((c7store.upsert_user 1).all_users)).1 +
       (broadcast_tally (fun u => u != 2) ((c7store.upsert_user 1).all_users)).2 =
       ((c7store.upsert_user 1).all_users).length) :=
  ⟨by decide, by decide,
   C7_broadcast_tally ⟨"t", 1, "c", 2048⟩ (fun u => u != 2) c7store 1 (some "hello all") "bot"
     (by decide) (by decide) (by decide) (by decide) rfl⟩

theorem menu_dispatch_frame (st : Storage) (uid : Int) (lang : String) (io : Bool)
    (text : String) :
    (menu_dispatch st uid lang io text).1.media_caption = st.media_caption ∧
    ∀ u b, Action.sendTo u b ∉ (menu_dispatch st uid lang io text).2 := by
  unfold menu_dispatch
  split_ifs <;> exact ⟨by simp, by intro u b; simp⟩

theorem menu_dispatch_keeps_state (st : Storage) (uid : Int) (lang : String) (io : Bool)
    (text : String) (h : alookup st.states uid ≠ Option.none) :
    alookup (menu_dispatch st uid lang io text).1.states uid ≠ Option.none := by
  unfold menu_dispatch
  split_ifs <;> simp_all [Storage.set_state, alookup_updState_self]

/-- C9: a non-owner identity can never write the global media caption and
can never cause broadcast sends, whatever the chat type, text and stored
state; and when such an identity holds a stale `awaiting_caption` or
`awaiting_broadcast` state, its (non-blank, non-command, non-cancel)
private text is dispatched as ordinary menu input, with the stale state
never honored and never cleared to idle (a state row for the identity is
still present afterwards). -/
theorem C9_nonowner_no_caption_no_broadcast (cfg : Config) (sendOk : Int → Bool)
    (st : Storage) (chat : ChatType) (uid : Int) (rawText : Option String) (bu : String)
    (huid : uid ≠ cfg.owner_id) :
    ((message_handler cfg sendOk st chat uid rawText bu).1.media_caption = st.media_caption ∧
     ∀ u b, Action.sendTo u b ∉ (message_handler cfg sendOk st chat uid rawText bu).2) ∧
    (chat = ChatType.priv →
     pyStrip (rawText.getD "") ≠ "" →
     pyStrip (rawText.getD "") ≠ "/start" →
     isCancel (pyStrip (rawText.getD "")) = false →
     (alookup st.states uid = some "awaiting_caption" ∨
      alookup st.states uid = some "awaiting_broadcast") →
     (message_handler cfg sendOk st chat uid rawText bu =
        menu_dispatch ((st.upsert_user uid).get_language uid).2 uid
          ((st.upsert_user uid).get_language uid).1 (uid == cfg.owner_id)
          (pyStrip (rawText.getD "")) ∧
      alookup (message_handler cfg sendOk st chat uid rawText bu).1.states uid ≠
        Option.none)) := by
  have hbeq : (uid == cfg.owner_id) = false := by simp [huid]
  constructor
  · simp only [message_handler, Storage.get_state]
    by_cases h0 : pyStrip (rawText.getD "") = ""
    · rw [if_pos h0]
      exact ⟨rfl, by intro u b; simp⟩
    · rw [if_neg h0]
      by_cases hc : chat = ChatType.priv
      · rw [if_pos hc]
        by_cases hs : pyStrip (rawText.getD "") = "/start"
        · rw [if_pos hs]
          exact ⟨by simp, by intro u b; simp⟩
        · rw [if_neg hs]
          by_cases hk : isCancel (pyStrip (rawText.getD "")) = true
          · rw [if_pos hk]
            exact ⟨by simp, by intro u b; simp⟩
          · rw [if_neg hk]
            by_cases hu :
                alookup ((st.upsert_user uid).get_language uid).2.states uid =
                  some "awaiting_url"
            · rw [if_pos hu]
              cases hurl : extract_url (pyStrip (rawText.getD "")) with
              | none => exact ⟨by simp, by intro u b; simp⟩
              | some url => exact ⟨by simp [handle_download], by intro u b; simp [handle_download]⟩
            · rw [if_neg hu, if_neg (by simp [hbeq]), if_neg (by simp [hbeq])]
              exact ⟨(menu_dispatch_frame _ _ _ _ _).1.trans (by simp),
                (menu_dispatch_frame _ _ _ _ _).2⟩
      · rw [if_neg hc]
        by_cases hg : chat = ChatType.group ∨ chat = ChatType.supergroup
        · rw [if_pos hg]
          by_cases hm :
              containsSub (pyLower (pyStrip (rawText.getD ""))).toList
                ("@" ++ pyLower bu).toList = true
          · rw [if_pos hm]
            cases hurl : extract_url (pyStrip (rawText.getD "")) with
            | none => exact ⟨by simp, by intro u b; simp⟩
            | some url => exact ⟨by simp [handle_download], by intro u b; simp [handle_download]⟩
          · rw [if_neg hm]
            exact ⟨by simp, by intro u b; simp⟩
        · rw [if_neg hg]
          exact ⟨by simp, by intro u b; simp⟩
  · intro hchat hne hns hnc hstate
    subst hchat
    have hmh : message_handler cfg sendOk st ChatType.priv uid rawText bu =
        menu_dispatch ((st.upsert_user uid).get_language uid).2 uid
          ((st.upsert_user uid).get_language uid).1 (uid == cfg.owner_id)
          (pyStrip (rawText.getD "")) := by
      simp only [message_handler, Storage.get_state]
      rw [if_neg hne]
      simp only [if_true]
      rw [if_neg hns, if_neg (by rw [hnc]; exact Bool.false_ne_true)]
      simp only [get_language_snd_states, upsert_user_states]
      rw [if_neg (by rcases hstate with h | h <;> rw [h] <;> simp),
        if_neg (by simp [hbeq]), if_neg (by simp [hbeq])]
    refine ⟨hmh, ?_⟩
    rw [hmh]
    refine menu_dispatch_keeps_state _ _ _ _ _ ?_
    simp only [get_language_snd_states, upsert_user_states]
    rcases hstate with h2 | h2 <;> rw [h2] <;> simp

/-- The store used by the C9 witness: non-owner identity 2 holds a stale
`awaiting_caption` state; the global caption is `"secret"`. -/
def c9store : Storage :=
  { users := [(2, defaultProfile)], states := [(2, "awaiting_caption")],
    media_caption := "secret" }

/-- Witness for C9: non-owner identity 2 (owner is 1) with a stale
`awaiting_caption` state sending `"hello"`. -/
theorem C9_nonowner_no_caption_no_broadcast_witness :
    (2 : Int) ≠ (⟨"t", 1, "c", 2048⟩ : Config).owner_id ∧
    (((message_handler ⟨"t", 1, "c", 2048⟩ (fun _ => true) c9store ChatType.priv 2
          (some "hello") "bot").1.media_caption = c9store.media_caption ∧
      ∀ u b, Action.sendTo u b ∉ (message_handler ⟨"t", 1, "c", 2048⟩ (fun _ => true) c9store
          ChatType.priv 2 (some "hello") "bot").2) ∧
     (ChatType.priv = ChatType.priv →
      pyStrip ((some "hello").getD "") ≠ "" →
      pyStrip ((some "hello").getD "") ≠ "/start" →
      isCancel (pyStrip ((some "hello").getD "")) = false →
      (alookup c9store.states 2 = some "awaiting_caption" ∨
       alookup c9store.states 2 = some "awaiting_broadcast") →
      (message_handler ⟨"t", 1, "c", 2048⟩ (fun _ => true) c9store ChatType.priv 2
          (some "hello") "bot" =
         menu_dispatch ((c9store.upsert_user 2).get_language 2).2 2
           ((c9store.upsert_user 2).get_language 2).1
           ((2 : Int) == (⟨"t", 1, "c", 2048⟩ : Config).owner_id)
           (pyStrip ((some "hello").getD "")) ∧
       alookup (message_handler ⟨"t", 1, "c", 2048⟩ (fun _ => true) c9store ChatType.priv 2
           (some "hello") "bot").1.states 2 ≠ Option.none))) :=
  ⟨by decide,
   C9_nonowner_no_caption_no_broadcast ⟨"t", 1, "c", 2048⟩ (fun _ => true) c9store
     ChatType.priv 2 (some "hello") "bot" (by decide)⟩

/-- Counterexample to C2 as stated: identity 7 has never confirmed a
locale (the flag is false before the event and still false after it), yet
sending the free text `"hello"` in a private chat makes `message_handler`
reply with the main menu — unrecognized idle text falls through to the
menu redisplay (bot.py line 519), and `message_handler` checks the
locale-confirmed flag nowhere. -/
theorem C2_counterexample :
    (Storage.empty.has_language 7).1 = false ∧
    (message_handler ⟨"t", 1, "c", 2048⟩ (fun _ => true) Storage.empty ChatType.priv 7
        (some "hello") "bot").2 =
      [Action.reply (Msg.text "ru" "menu") (Markup.menu "ru" false)] ∧
    (((message_handler ⟨"t", 1, "c", 2048⟩ (fun _ => true) Storage.empty ChatType.priv 7
        (some "hello") "bot").1).has_language 7).1 = false := by
  decide

/-- C2 (amended): the locale gate holds on the `/start` flow only: for an
identity whose locale-confirmed flag is false, `start_handler` replies
with the locale-selection prompt and never shows the main menu;
`message_handler`, however, performs no locale-confirmation check and can
show the menu regardless of the flag (see the counterexample). -/
theorem C2_start_locale_gate (cfg : Config) (st : Storage) (uid : Int)
    (h : (st.has_language uid).1 = false) :
    start_handler cfg st ChatType.priv uid =
      (st.upsert_user uid, [Action.reply (Msg.text "ru" "choose_lang") Markup.langButtons]) ∧
    ∀ m l io, Action.reply m (Markup.menu l io) ∉ (start_handler cfg st ChatType.priv uid).2 := by
  have h1 : ((st.upsert_user uid).has_language uid).1 = false := by
    rw [has_language_upsert]
    exact h
  have hmh : start_handler cfg st ChatType.priv uid =
      (st.upsert_user uid, [Action.reply (Msg.text "ru" "choose_lang") Markup.langButtons]) := by
    unfold start_handler
    rw [if_neg (by simp), if_pos h1]
  refine ⟨hmh, ?_⟩
  rw [hmh]
  intro m l io
  simp

/-- Witness for C2 (amended): the never-seen identity 7 over the empty
store gets the locale prompt from `/start`, and no menu. -/
theorem C2_start_locale_gate_witness :
    (Storage.empty.has_language 7).1 = false ∧
    (start_handler ⟨"t", 1, "c", 2048⟩ Storage.empty ChatType.priv 7 =
       (Storage.empty.upsert_user 7,
        [Action.reply (Msg.text "ru" "choose_lang") Markup.langButtons]) ∧
     ∀ m l io, Action.reply m (Markup.menu l io) ∉
       (start_handler ⟨"t", 1, "c", 2048⟩ Storage.empty ChatType.priv 7).2) :=
  ⟨by decide, C2_start_locale_gate ⟨"t", 1, "c", 2048⟩ Storage.empty 7 (by decide)⟩

end Bot
